import Mathlib

/- Verification of the core decision logic of the plant-disease diagnosis
   application (src/streamlit_app.py): the pathogen classifier
   infer_pathogen_type, the health scorer calculate_health_score, the
   severity derivation, the confidence normalization step, and the
   recovery-timeline lookup. Python floats are modelled by the rationals,
   Python string membership (the in operator) and str.lower by explicit
   recursion over character lists. -/

/-- Case folding of a string, modelling the Python str.lower method
    (adequate for the ASCII labels this program handles). -/
def lowerStr (s : String) : String := String.mk (s.data.map Char.toLower)

/-- headMatch pat s is true when pat is an initial segment of s. -/
def headMatch : List Char → List Char → Bool
  | [], _ => true
  | _ :: _, [] => false
  | p :: ps, c :: cs => p == c && headMatch ps cs

/-- inChars pat s is true when pat occurs as a contiguous run inside s,
    modelling the Python membership test on character sequences. -/
def inChars : List Char → List Char → Bool
  | pat, [] => pat.isEmpty
  | pat, c :: cs => headMatch pat (c :: cs) || inChars pat cs

/-- strIn pat s models the Python expression pat in s for strings. -/
def strIn (pat s : String) : Bool := inChars pat.data s.data

/-- Source: src/streamlit_app.py lines 348-358, infer_pathogen_type. -/
def infer_pathogen_type (label : String) : String :=
  let l := lowerStr label
  if strIn "healthy" l then "Healthy"
  else if strIn "virus" l || strIn "mosaic" l then "Virus"
  else if strIn "bacterial" l then "Bacterium"
  else if strIn "mite" l || strIn "spider" l then "Arthropod"
  else "Fungus"

/-- The base-score table of calculate_health_score: the if chain binding
    base_score at src/streamlit_app.py lines 369-386, applied to the
    lower-cased disease name. -/
def base_score (disease_name_lower : String) : ℚ :=
  if strIn "virus" disease_name_lower then 30
  else if strIn "late_blight" disease_name_lower then 35
  else if strIn "early_blight" disease_name_lower then 45
  else if strIn "bacterial" disease_name_lower then 40
  else if strIn "mold" disease_name_lower then 55
  else if strIn "rust" disease_name_lower then 50
  else if strIn "scab" disease_name_lower then 60
  else if strIn "mildew" disease_name_lower then 65
  else 60

/-- Source: src/streamlit_app.py lines 361-390, calculate_health_score. -/
def calculate_health_score (disease_name : String) (confidence : ℚ) : ℚ :=
  let disease_name_lower := lowerStr disease_name
  if strIn "healthy" disease_name_lower then
    min 100 (confidence * 120)
  else
    let adjusted_score := base_score disease_name_lower * (1 - confidence * (1/2))
    max 10 adjusted_score

/-- Source: src/streamlit_app.py line 418, the severity derivation. -/
def severity (health_score : ℚ) : String :=
  if health_score ≤ 10 then "High"
  else if health_score < 50 then "Medium"
  else "GOOD"

/-- Source: src/streamlit_app.py lines 327-343, the RECOVERY_TIMELINE
    dictionary, as an association list in source order. -/
def RECOVERY_TIMELINE : List (String × List String) :=
  [ ("Low",
      [ "Immediate: Monitor plant regularly",
        "2–4 weeks: Observe symptom changes",
        "1 season: Preventive care"]),
    ("Medium",
      [ "Immediate: Apply recommended treatment",
        "2–4 weeks: Remove infected leaves",
        "1 season: Improve soil and crop rotation"]),
    ("High",
      [ "Immediate: Begin treatment within 24–48 hours",
        "2–4 weeks: Remove severely infected plants",
        "1 season: Strict prevention and sanitation"])]

/-- Source: src/streamlit_app.py line 477: the dictionary get call
    RECOVERY_TIMELINE.get(severity), which yields None on a missing key. -/
def timeline_steps (sev : String) : Option (List String) :=
  List.lookup sev RECOVERY_TIMELINE

/-- The diagnosis record assembled by the application after a prediction. -/
structure Diagnosis where
  pathogen : String
  confidence : ℚ
  health_score : ℚ
  severity : String

/-- Source: src/streamlit_app.py lines 414-418: the pipeline from the raw
    classifier output to the rendered quantities, including the confidence
    normalization on line 415. -/
def diagnose (label : String) (rawConfidence : ℚ) : Diagnosis :=
  let pathogen := infer_pathogen_type label
  let confidence := if rawConfidence ≤ 1 then rawConfidence else rawConfidence / 100
  let health_score := calculate_health_score label confidence
  let sev := severity health_score
  ⟨pathogen, confidence, health_score, sev⟩

/- ------------------------------------------------------------------ -/
/- Helper lemmas shared by the claim theorems.                         -/
/- ------------------------------------------------------------------ -/

theorem score_healthy_eq (label : String) (c : ℚ)
    (h : strIn "healthy" (lowerStr label) = true) :
    calculate_health_score label c = min 100 (c * 120) := by
  simp [calculate_health_score, h]

theorem score_disease_eq (label : String) (c : ℚ)
    (h : strIn "healthy" (lowerStr label) = false) :
    calculate_health_score label c
      = max 10 (base_score (lowerStr label) * (1 - c * (1/2))) := by
  simp [calculate_health_score, h]

theorem base_score_bounds (s : String) :
    30 ≤ base_score s ∧ base_score s ≤ 65 := by
  unfold base_score
  split_ifs <;> norm_num

/- ------------------------------------------------------------------ -/
/- Claim theorems.                                                     -/
/- ------------------------------------------------------------------ -/

/-- Claim C1, counterexample: the claim that calculate_health_score always
    lies in the range 10 to 100 fails at the concrete input
    ("X___healthy", confidence 0), where the healthy branch returns 0. -/
theorem claim_C1_counterexample :
    calculate_health_score "X___healthy" 0 = 0 ∧
    ¬ (10 ≤ calculate_health_score "X___healthy" 0) := by
  have h : calculate_health_score "X___healthy" 0 = 0 := by
    rw [score_healthy_eq _ _ (by decide)]
    simp [min_def]
  refine ⟨h, ?_⟩
  rw [h]
  norm_num

/-- Claim C1, amended: for every label and every confidence in the unit
    interval, calculate_health_score lies in the range 0 to 100, and for
    every label not containing the substring healthy (case-insensitive)
    it lies in the range 10 to 100. -/
theorem claim_C1_amended (label : String) (c : ℚ) (h0 : 0 ≤ c) (h1 : c ≤ 1) :
    (0 ≤ calculate_health_score label c ∧ calculate_health_score label c ≤ 100) ∧
    (strIn "healthy" (lowerStr label) = false →
      10 ≤ calculate_health_score label c) := by
  cases hh : strIn "healthy" (lowerStr label) with
  | false =>
      rw [score_disease_eq _ _ hh]
      obtain ⟨hb1, hb2⟩ := base_score_bounds (lowerStr label)
      have hbn : (0:ℚ) ≤ base_score (lowerStr label) := by linarith
      refine ⟨⟨le_trans (by norm_num) (le_max_left _ _), ?_⟩,
        fun _ => le_max_left _ _⟩
      refine max_le (by norm_num) ?_
      nlinarith [mul_nonneg hbn h0]
  | true =>
      rw [score_healthy_eq _ _ hh]
      refine ⟨⟨le_min (by norm_num) (mul_nonneg h0 (by norm_num)),
        min_le_left _ _⟩, ?_⟩
      intro hf
      simp at hf

/-- Witness for the amended claim C1 at a concrete diseased input. -/
theorem claim_C1_witness :
    (0 ≤ calculate_health_score "Tomato___Late_blight" (1/2) ∧
     calculate_health_score "Tomato___Late_blight" (1/2) ≤ 100) ∧
    10 ≤ calculate_health_score "Tomato___Late_blight" (1/2) :=
  ⟨(claim_C1_amended "Tomato___Late_blight" (1/2) (by norm_num) (by norm_num)).1,
   (claim_C1_amended "Tomato___Late_blight" (1/2) (by norm_num) (by norm_num)).2
     (by decide)⟩

/-- Claim C2: on every label without the substring healthy, the score is
    max 10 (base * (1 - confidence / 2)) with the base drawn from the
    ordered substring table base_score; a label matching no table keyword
    gets base 60, and the two pinned values for Tomato___Late_blight hold. -/
theorem claim_C2 (label : String) (c : ℚ)
    (h : strIn "healthy" (lowerStr label) = false) :
    (calculate_health_score label c
       = max 10 (base_score (lowerStr label) * (1 - c * (1/2)))) ∧
    (strIn "virus" (lowerStr label) = false →
     strIn "late_blight" (lowerStr label) = false →
     strIn "early_blight" (lowerStr label) = false →
     strIn "bacterial" (lowerStr label) = false →
     strIn "mold" (lowerStr label) = false →
     strIn "rust" (lowerStr label) = false →
     strIn "scab" (lowerStr label) = false →
     strIn "mildew" (lowerStr label) = false →
     calculate_health_score label c = max 10 (60 * (1 - c * (1/2)))) ∧
    calculate_health_score "Tomato___Late_blight" 0 = 35 ∧
    calculate_health_score "Tomato___Late_blight" 1 = 35 / 2 := by
  refine ⟨score_disease_eq _ _ h, ?_, ?_, ?_⟩
  · intro v lb eb bc mo ru sc mi
    rw [score_disease_eq _ _ h]
    simp [base_score, v, lb, eb, bc, mo, ru, sc, mi]
  · rw [score_disease_eq _ _ (by decide),
        show base_score (lowerStr "Tomato___Late_blight") = 35 from by decide]
    rw [max_def]
    norm_num
  · rw [score_disease_eq _ _ (by decide),
        show base_score (lowerStr "Tomato___Late_blight") = 35 from by decide]
    rw [max_def]
    norm_num

/-- Witness for claim C2: a diseased label matching no table keyword
    scores with the default base 60. -/
theorem claim_C2_witness :
    calculate_health_score "Tomato___Target_Spot" (1/2)
      = max 10 (60 * (1 - (1/2) * (1/2))) :=
  (claim_C2 "Tomato___Target_Spot" (1/2) (by decide)).2.1 (by decide) (by decide)
    (by decide) (by decide) (by decide) (by decide) (by decide) (by decide)

/-- Claim C3: on every label containing the substring healthy
    (case-insensitive) and every confidence, the score is
    min 100 (confidence * 120); the three pinned values for X___healthy
    at confidences 0, 0.9 and 1 hold. -/
theorem claim_C3 (label : String) (c : ℚ)
    (h : strIn "healthy" (lowerStr label) = true) :
    calculate_health_score label c = min 100 (c * 120) ∧
    calculate_health_score "X___healthy" 0 = 0 ∧
    calculate_health_score "X___healthy" (9/10) = 100 ∧
    calculate_health_score "X___healthy" 1 = 100 := by
  refine ⟨score_healthy_eq _ _ h, ?_, ?_, ?_⟩
  · rw [score_healthy_eq _ _ (by decide)]
    simp [min_def]
  · rw [score_healthy_eq _ _ (by decide)]
    rw [min_def]
    norm_num
  · rw [score_healthy_eq _ _ (by decide)]
    rw [min_def]
    norm_num

/-- Witness for claim C3 at a concrete healthy label. -/
theorem claim_C3_witness :
    calculate_health_score "Potato___healthy" (1/2) = min 100 ((1/2) * 120) :=
  (claim_C3 "Potato___healthy" (1/2) (by decide)).1

/-- Claim C4: infer_pathogen_type returns exactly one of the five
    categories, by case-insensitive ordered substring tests with first
    match winning: healthy, then virus or mosaic, then bacterial, then
    mite or spider, otherwise Fungus; a label containing healthy maps to
    Healthy regardless of any other keyword present. -/
theorem claim_C4 (label : String) :
    (infer_pathogen_type label = "Healthy" ∨ infer_pathogen_type label = "Virus" ∨
     infer_pathogen_type label = "Bacterium" ∨
     infer_pathogen_type label = "Arthropod" ∨
     infer_pathogen_type label = "Fungus") ∧
    (strIn "healthy" (lowerStr label) = true →
      infer_pathogen_type label = "Healthy") ∧
    (strIn "healthy" (lowerStr label) = false →
      (strIn "virus" (lowerStr label) || strIn "mosaic" (lowerStr label)) = true →
      infer_pathogen_type label = "Virus") ∧
    (strIn "healthy" (lowerStr label) = false →
      (strIn "virus" (lowerStr label) || strIn "mosaic" (lowerStr label)) = false →
      strIn "bacterial" (lowerStr label) = true →
      infer_pathogen_type label = "Bacterium") ∧
    (strIn "healthy" (lowerStr label) = false →
      (strIn "virus" (lowerStr label) || strIn "mosaic" (lowerStr label)) = false →
      strIn "bacterial" (lowerStr label) = false →
      (strIn "mite" (lowerStr label) || strIn "spider" (lowerStr label)) = true →
      infer_pathogen_type label = "Arthropod") ∧
    (strIn "healthy" (lowerStr label) = false →
      (strIn "virus" (lowerStr label) || strIn "mosaic" (lowerStr label)) = false →
      strIn "bacterial" (lowerStr label) = false →
      (strIn "mite" (lowerStr label) || strIn "spider" (lowerStr label)) = false →
      infer_pathogen_type label = "Fungus") := by
  refine ⟨?_, ?_, ?_, ?_, ?_, ?_⟩
  · simp only [infer_pathogen_type]
    split_ifs <;> simp
  · intro h1
    simp [infer_pathogen_type, h1]
  · intro h1 h2
    simp [infer_pathogen_type, h1, h2]
  · intro h1 h2 h3
    simp [infer_pathogen_type, h1, h2, h3]
  · intro h1 h2 h3 h4
    simp [infer_pathogen_type, h1, h2, h3, h4]
  · intro h1 h2 h3 h4
    simp [infer_pathogen_type, h1, h2, h3, h4]

/-- Witness for claim C4: a label containing healthy together with the
    virus and mosaic keywords still resolves to Healthy. -/
theorem claim_C4_witness :
    infer_pathogen_type "Abc___healthy_mosaic_virus" = "Healthy" :=
  (claim_C4 "Abc___healthy_mosaic_virus").2.1 (by decide)

/-- Claim C5: the severity tier derived from the health score is the pure
    threshold mapping High on scores at most 10, Medium strictly between
    10 and 50, and the top tier (spelled GOOD by the code) from 50 up;
    the four pinned boundary values hold. -/
theorem claim_C5 (s : ℚ) :
    (s ≤ 10 → severity s = "High") ∧
    (10 < s → s < 50 → severity s = "Medium") ∧
    (50 ≤ s → severity s = "GOOD") ∧
    severity 10 = "High" ∧
    severity (49999/1000) = "Medium" ∧
    severity 50 = "GOOD" ∧
    severity 100 = "GOOD" := by
  refine ⟨?_, ?_, ?_, by decide, ?_, by decide, by decide⟩
  · intro h
    simp [severity, h]
  · intro h1 h2
    unfold severity
    rw [if_neg (by linarith), if_pos h2]
  · intro h
    unfold severity
    rw [if_neg (by linarith), if_neg (by linarith)]
  · unfold severity
    rw [if_neg (by norm_num), if_pos (by norm_num)]

/-- Witness for claim C5 at a concrete low score. -/
theorem claim_C5_witness : severity 7 = "High" :=
  (claim_C5 7).1 (by norm_num)

/-- Claim C6: for confidence in the unit interval, a score of 100 is only
    reached when the label contains healthy and the confidence is at
    least 5/6 (that is, 100/120); no disease-branch input reaches 100. -/
theorem claim_C6 (label : String) (c : ℚ) (h0 : 0 ≤ c) (h1 : c ≤ 1)
    (h100 : calculate_health_score label c = 100) :
    strIn "healthy" (lowerStr label) = true ∧ 5/6 ≤ c := by
  cases hh : strIn "healthy" (lowerStr label) with
  | false =>
      exfalso
      rw [score_disease_eq _ _ hh] at h100
      obtain ⟨hb1, hb2⟩ := base_score_bounds (lowerStr label)
      have hbn : (0:ℚ) ≤ base_score (lowerStr label) := by linarith
      have hle : base_score (lowerStr label) * (1 - c * (1/2)) ≤ 65 := by
        nlinarith [mul_nonneg hbn h0]
      have hcap : max 10 (base_score (lowerStr label) * (1 - c * (1/2))) ≤ 65 :=
        max_le (by norm_num) hle
      rw [h100] at hcap
      norm_num at hcap
  | true =>
      rw [score_healthy_eq _ _ hh] at h100
      refine ⟨rfl, ?_⟩
      have h120 := min_eq_left_iff.mp h100
      linarith

/-- Witness for claim C6 at the healthy label with full confidence. -/
theorem claim_C6_witness :
    strIn "healthy" (lowerStr "X___healthy") = true ∧ (5/6 : ℚ) ≤ 1 :=
  claim_C6 "X___healthy" 1 (by norm_num) (by norm_num)
    (by rw [score_healthy_eq _ _ (by decide)]; rw [min_def]; norm_num)

/-- Claim C7: for a fixed label without the substring healthy the score is
    non-increasing in confidence over the unit interval, and for a fixed
    label containing healthy it is non-decreasing. -/
theorem claim_C7 (label : String) (c₁ c₂ : ℚ)
    (h0 : 0 ≤ c₁) (h12 : c₁ ≤ c₂) (h1 : c₂ ≤ 1) :
    (strIn "healthy" (lowerStr label) = false →
      calculate_health_score label c₂ ≤ calculate_health_score label c₁) ∧
    (strIn "healthy" (lowerStr label) = true →
      calculate_health_score label c₁ ≤ calculate_health_score label c₂) := by
  constructor
  · intro hh
    rw [score_disease_eq _ _ hh, score_disease_eq _ _ hh]
    refine max_le_max le_rfl ?_
    obtain ⟨hb1, _⟩ := base_score_bounds (lowerStr label)
    have hbn : (0:ℚ) ≤ base_score (lowerStr label) := by linarith
    have hmono : 1 - c₂ * (1/2) ≤ 1 - c₁ * (1/2) := by linarith
    exact mul_le_mul_of_nonneg_left hmono hbn
  · intro hh
    rw [score_healthy_eq _ _ hh, score_healthy_eq _ _ hh]
    exact min_le_min le_rfl (by linarith)

/-- Witness for claim C7: raising the confidence from 0 to one half does
    not raise the score of a diseased label. -/
theorem claim_C7_witness :
    calculate_health_score "Tomato___Late_blight" (1/2)
      ≤ calculate_health_score "Tomato___Late_blight" 0 :=
  (claim_C7 "Tomato___Late_blight" 0 (1/2) (by norm_num) (by norm_num)
    (by norm_num)).1 (by decide)

/-- Claim C8: in the diagnosis pipeline, a raw confidence above 1 is
    divided by 100 before calculate_health_score is called, and a raw
    confidence at most 1 is passed through unchanged. -/
theorem claim_C8 (label : String) (c : ℚ) :
    (c ≤ 1 → (diagnose label c).confidence = c ∧
      (diagnose label c).health_score = calculate_health_score label c) ∧
    (1 < c → (diagnose label c).confidence = c / 100 ∧
      (diagnose label c).health_score = calculate_health_score label (c / 100)) := by
  constructor
  · intro h
    constructor <;> simp [diagnose, h]
  · intro h
    have hn : ¬ (c ≤ 1) := not_le.mpr h
    constructor <;> simp [diagnose, hn]

/-- Witness for claim C8: a raw confidence of 80 (a percentage) is
    normalized to 80/100 before scoring. -/
theorem claim_C8_witness :
    (diagnose "Tomato___Late_blight" 80).confidence = 80 / 100 ∧
    (diagnose "Tomato___Late_blight" 80).health_score
      = calculate_health_score "Tomato___Late_blight" (80 / 100) :=
  (claim_C8 "Tomato___Late_blight" 80).2 (by norm_num)

/-- Claim C9: both core functions are total Lean functions, so they are
    defined on every string label and every rational confidence with no
    failure path; infer_pathogen_type always lands in the five categories,
    a label matching no classifier keyword falls through to Fungus, and a
    non-healthy label matching no base-score keyword scores with the
    default base 60. -/
theorem claim_C9 (label : String) (c : ℚ) :
    (infer_pathogen_type label = "Healthy" ∨ infer_pathogen_type label = "Virus" ∨
     infer_pathogen_type label = "Bacterium" ∨
     infer_pathogen_type label = "Arthropod" ∨
     infer_pathogen_type label = "Fungus") ∧
    (strIn "healthy" (lowerStr label) = false →
     strIn "virus" (lowerStr label) = false →
     strIn "mosaic" (lowerStr label) = false →
     strIn "bacterial" (lowerStr label) = false →
     strIn "mite" (lowerStr label) = false →
     strIn "spider" (lowerStr label) = false →
     infer_pathogen_type label = "Fungus") ∧
    (strIn "healthy" (lowerStr label) = false →
     strIn "virus" (lowerStr label) = false →
     strIn "late_blight" (lowerStr label) = false →
     strIn "early_blight" (lowerStr label) = false →
     strIn "bacterial" (lowerStr label) = false →
     strIn "mold" (lowerStr label) = false →
     strIn "rust" (lowerStr label) = false →
     strIn "scab" (lowerStr label) = false →
     strIn "mildew" (lowerStr label) = false →
     calculate_health_score label c = max 10 (60 * (1 - c * (1/2)))) := by
  refine ⟨?_, ?_, ?_⟩
  · simp only [infer_pathogen_type]
    split_ifs <;> simp
  · intro h1 h2 h3 h4 h5 h6
    simp [infer_pathogen_type, h1, h2, h3, h4, h5, h6]
  · intro h1 h2 h3 h4 h5 h6 h7 h8 h9
    rw [score_disease_eq _ _ h1]
    simp [base_score, h2, h3, h4, h5, h6, h7, h8, h9]

/-- Witness for claim C9 at a label matching no keyword in either table. -/
theorem claim_C9_witness :
    infer_pathogen_type "Tomato___Target_Spot" = "Fungus" ∧
    calculate_health_score "Tomato___Target_Spot" 0
      = max 10 (60 * (1 - 0 * (1/2))) :=
  ⟨(claim_C9 "Tomato___Target_Spot" 0).2.1 (by decide) (by decide) (by decide)
      (by decide) (by decide) (by decide),
   (claim_C9 "Tomato___Target_Spot" 0).2.2 (by decide) (by decide) (by decide)
      (by decide) (by decide) (by decide) (by decide) (by decide) (by decide)⟩

/-- Claim C10: the computed severity is always one of the strings High,
    Medium, GOOD; the RECOVERY_TIMELINE keys are Low, Medium, High, so
    GOOD is not among them; every score of at least 50 — reachable for a
    diseased label, for example the mildew label at confidence 0 which
    scores 65 — makes the timeline lookup return none; and no computed
    severity ever equals Low, so the Low timeline entry is unreachable. -/
theorem claim_C10 (s : ℚ) :
    (severity s = "High" ∨ severity s = "Medium" ∨ severity s = "GOOD") ∧
    RECOVERY_TIMELINE.map Prod.fst = ["Low", "Medium", "High"] ∧
    timeline_steps "GOOD" = none ∧
    (50 ≤ s → timeline_steps (severity s) = none) ∧
    severity s ≠ "Low" ∧
    calculate_health_score "Squash___Powdery_mildew" 0 = 65 ∧
    timeline_steps (severity (calculate_health_score "Squash___Powdery_mildew" 0))
      = none := by
  have h65 : calculate_health_score "Squash___Powdery_mildew" 0 = 65 := by
    rw [score_disease_eq _ _ (by decide),
        show base_score (lowerStr "Squash___Powdery_mildew") = 65 from by decide]
    rw [max_def]
    norm_num
  refine ⟨?_, by decide, by decide, ?_, ?_, h65, ?_⟩
  · unfold severity
    split_ifs <;> simp
  · intro h
    have hg : severity s = "GOOD" := by
      unfold severity
      rw [if_neg (by linarith), if_neg (by linarith)]
    rw [hg]
    decide
  · unfold severity
    split_ifs <;> decide
  · rw [h65]
    decide

/-- Witness for claim C10 at the concrete score 65. -/
theorem claim_C10_witness : timeline_steps (severity 65) = none :=
  (claim_C10 65).2.2.2.1 (by norm_num)
